import Mathlib

/-!
Verification of the client-side orchestration core of the financial
reconciliation frontend (`streamlit_app.py`): file validation, the resilient
health probe, the request client, the workflow session state machine, and the
result exporter. Each Lean definition is a shallow embedding of the
corresponding Python function; network transports and backend responses are
modelled as explicit oracles supplied to the functions.
-/

/-! ## Python string primitives

The Python code uses `s[:n]` (character slicing), `s.split('.')` (single-char
split) and `s.lower()` (ASCII-relevant lowering). They are embedded here as
executable functions over the character data of a `String`. -/

/-- Python `s[:n]`: the first `n` characters of `s`. -/
def py_truncate (s : String) (n : Nat) : String :=
  ⟨s.data.take n⟩

/-- Character-list core of Python `str.split(sep)` for a one-character
separator: splitting the empty text yields one empty piece, a separator
character opens a new piece, any other character is prepended to the first
piece of the remainder. -/
def split_chars (sep : Char) : List Char → List (List Char)
  | [] => [[]]
  | c :: rest =>
    if c = sep then [] :: split_chars sep rest
    else
      match split_chars sep rest with
      | [] => [[c]]
      | h :: t => (c :: h) :: t

/-- Python `s.split(sep)` for a one-character separator. -/
def py_split (sep : Char) (s : String) : List String :=
  (split_chars sep s.data).map (fun cs => ⟨cs⟩)

/-- Python `s.lower()` restricted to its ASCII action (the extensions compared
against are all ASCII). -/
def py_lower (s : String) : String :=
  ⟨s.data.map Char.toLower⟩

/-- Truthiness of an optional string as Python evaluates it in `if error:`
(`None` and the empty string are falsy). -/
def py_truthy_str : Option String → Bool
  | none => false
  | some s => s ≠ ""

/-! ## FileValidator (`validate_file`, lines 132-147)

A candidate upload as the handler sees it: a Streamlit `UploadedFile` exposing
`name` and `size`. -/

structure UploadedFile where
  name : String
  size : Nat
deriving DecidableEq, Repr

/-- The expression `file.name.split('.')[-1].lower()` from line 143. -/
def file_extension_of (name : String) : String :=
  py_lower ((py_split '.' name).getLastD "")

/-- Line 142: `allowed_extensions = ['csv', 'xlsx', 'xls']`. -/
def allowed_extensions : List String := ["csv", "xlsx", "xls"]

/-- `validate_file(file, file_type)` (lines 132-147). A missing file is the
`None` case; line 374 of the upload handler produces the same message for a
missing file, so the `None` branch mirrors both call sites. -/
def validate_file (file : Option UploadedFile) (file_type : String) : Bool × String :=
  match file with
  | none => (false, file_type ++ " file is required")
  | some f =>
    if 50 * 1024 * 1024 < f.size then
      (false, file_type ++ " file is too large (max 50MB)")
    else
      if file_extension_of f.name ∈ allowed_extensions then
        (true, "Valid")
      else
        (false, file_type ++ " must be one of: " ++ String.intercalate ", " allowed_extensions)

/-! ## ResilientConnectionProbe (`test_backend_connection`, lines 81-130)

Each attempt's interaction with the network is one of: an HTTP response with a
status code and body text, or one of the four caught exception classes. The
oracle maps the attempt index to its outcome. -/

inductive ProbeAttempt where
  | resp (status_code : Nat) (text : String)
  | sslErr (msg : String)
  | connErr (msg : String)
  | timeoutErr
  | otherErr (msg : String)
deriving DecidableEq, Repr

/-- Whether an attempt outcome is a transport-level failure (an exception
caught by one of the four `except` clauses), as opposed to a received HTTP
response. -/
def is_transport_failure : ProbeAttempt → Bool
  | .resp _ _ => false
  | _ => true

/-- Observable result of one probe run: the returned `(bool, message)` pair
plus the number of attempts actually executed and the list of backoff delays
slept (in seconds). -/
structure ProbeRun where
  ok : Bool
  msg : String
  attempts : Nat
  waits : List Nat
deriving DecidableEq, Repr

/-- The `for attempt in range(max_retries)` loop of `test_backend_connection`,
over the list of remaining attempt indices. `rest = []` is exactly the
`attempt == max_retries - 1` test of the source, and the fall-through return
after the loop (line 130) is the `[]` case. On a response, HTTP 200 returns
success and any other status returns immediately; on a caught exception the
final attempt returns the classified message and a non-final attempt sleeps
`2 * 2 ** attempt` seconds and retries. -/
def test_backend_connection_loop (oracle : Nat → ProbeAttempt) : List Nat → ProbeRun
  | [] => ⟨false, "Max retries exceeded", 0, []⟩
  | attempt :: rest =>
    match oracle attempt with
    | .resp status text =>
      if status = 200 then
        ⟨true, "Connected (HTTP " ++ toString status ++ ")", 1, []⟩
      else
        ⟨false, "HTTP " ++ toString status ++ ": " ++ py_truncate text 100, 1, []⟩
    | .sslErr m =>
      if rest = [] then
        ⟨false, "SSL Error: " ++ py_truncate m 100, 1, []⟩
      else
        let r := test_backend_connection_loop oracle rest
        ⟨r.ok, r.msg, r.attempts + 1, 2 * 2 ^ attempt :: r.waits⟩
    | .connErr m =>
      if rest = [] then
        ⟨false, "Connection Error: " ++ py_truncate m 100, 1, []⟩
      else
        let r := test_backend_connection_loop oracle rest
        ⟨r.ok, r.msg, r.attempts + 1, 2 * 2 ^ attempt :: r.waits⟩
    | .timeoutErr =>
      if rest = [] then
        ⟨false, "Timeout - Backend may be sleeping on Render", 1, []⟩
      else
        let r := test_backend_connection_loop oracle rest
        ⟨r.ok, r.msg, r.attempts + 1, 2 * 2 ^ attempt :: r.waits⟩
    | .otherErr m =>
      if rest = [] then
        ⟨false, "Unexpected error: " ++ py_truncate m 100, 1, []⟩
      else
        let r := test_backend_connection_loop oracle rest
        ⟨r.ok, r.msg, r.attempts + 1, 2 * 2 ^ attempt :: r.waits⟩

/-- `test_backend_connection()` with `max_retries = 3` (attempts 0, 1, 2). -/
def test_backend_connection (oracle : Nat → ProbeAttempt) : ProbeRun :=
  test_backend_connection_loop oracle [0, 1, 2]

/-- The message returned when the final (third) attempt fails at transport
level: the classification of that attempt's exception, per the four `except`
clauses (the `Timeout` clause substitutes a fixed message on the final
attempt). Response outcomes are not final transport failures; the value for
them is irrelevant and set to the empty string. -/
def final_failure_msg : ProbeAttempt → String
  | .resp _ _ => ""
  | .sslErr m => "SSL Error: " ++ py_truncate m 100
  | .connErr m => "Connection Error: " ++ py_truncate m 100
  | .timeoutErr => "Timeout - Backend may be sleeping on Render"
  | .otherErr m => "Unexpected error: " ++ py_truncate m 100

/-! ## RequestClient (`make_api_request`, lines 149-176)

A call is made with an endpoint, a method, and flags recording whether the
`data` and `files` arguments are truthy. The transport is an oracle giving the
outcome of each successive physical HTTP request; the function returns the
`(response, error)` pair together with the number of physical requests it
performed. -/

structure HttpResponse (β : Type) where
  status_code : Nat
  body : β
deriving DecidableEq, Repr

inductive TransportOutcome (β : Type) where
  | response (r : HttpResponse β)
  | timeout
  | connectionError
  | otherException (msg : String)
deriving DecidableEq, Repr

/-- The method dispatch of lines 155-167: `GET`, `POST` with files, or `POST`
with data; anything else returns `Invalid request method` without issuing a
request. -/
def valid_request_method (method : String) (has_data has_files : Bool) : Bool :=
  method = "GET" || (method = "POST" && has_files) || (method = "POST" && has_data)

/-- `make_api_request(endpoint, method, data, files)`: issues at most one
request and classifies its outcome per the `except` clauses of lines 171-176.
The second component counts physical requests issued. -/
def make_api_request (_endpoint method : String) (has_data has_files : Bool)
    (transport : Nat → TransportOutcome β) :
    (Option (HttpResponse β) × Option String) × Nat :=
  if valid_request_method method has_data has_files then
    match transport 0 with
    | .response r => ((some r, none), 1)
    | .timeout =>
      ((none, some "Request timed out. The operation may be taking longer than expected."), 1)
    | .connectionError =>
      ((none, some "Failed to connect to backend. The service may be starting up."), 1)
    | .otherException m => ((none, some ("Request failed: " ++ m)), 1)
  else
    ((none, some "Invalid request method"), 0)

/-- The expression `response.status_code if response else 'No response'` from
the handlers' final `else` branches. A `requests.Response` is truthy exactly
when `status_code < 400`. -/
def status_code_display : Option (HttpResponse β) → String
  | some r => if r.status_code < 400 then toString r.status_code else "No response"
  | none => "No response"

/-! ## Backend response bodies and the Session

JSON scalar values; rows (JSON objects) are association lists of field name to
scalar, in insertion order, as the backend's parsed JSON presents them. -/

inductive JValue where
  | str (s : String)
  | num (n : Int)
  | boolean (b : Bool)
  | null
deriving DecidableEq, Repr

abbrev Row : Type := List (String × JValue)

/-- Parsed `/upload` response body, with the fields the handler reads:
`success`, `session_id` (read on the success path), and the optional `error`
used in `result.get('error', 'Unknown error')`. -/
structure UploadResponseBody where
  success : Bool
  session_id : String
  error : Option String
deriving DecidableEq, Repr

/-- Parsed `/identify_columns` response body. -/
structure ColumnResponseBody where
  success : Bool
  column_info : Row
  error : Option String
deriving DecidableEq, Repr

/-- One entry of the `matches` list of a `/match` response. -/
structure MatchRecord where
  file_a_entry : Row
  file_b_entry : Row
  confidence_score : JValue
  match_reason : String
deriving DecidableEq, Repr

/-- Parsed `/match` response body, with every field the handlers and download
buttons read via `.get`; absent optional fields are `none`. -/
structure MatchResponseBody where
  success : Bool
  summary : Option Row
  message : Option String
  «matches» : Option (List MatchRecord)
  unmatched_file_a_entries : Option (List Row)
  unmatched_file_b_entries : Option (List Row)
  column_info : Option Row
  error : Option String
deriving DecidableEq, Repr

/-- The workflow-relevant `st.session_state` keys (lines 63-72). The cached
`backend_status` is read by every handler guard; it is passed to each event as
the `connected` flag rather than stored, since the probe that refreshes it is
modelled separately. -/
structure Session where
  upload_result : Option UploadResponseBody
  column_identification_result : Option ColumnResponseBody
  matching_result : Option MatchResponseBody
  session_id : Option String
  files_uploaded : Bool
  columns_identified : Bool
  matching_completed : Bool
deriving DecidableEq, Repr

/-- `initialize_session_state()` (lines 61-78): the default value of every
key. -/
def initialize_session_state : Session :=
  { upload_result := none
    column_identification_result := none
    matching_result := none
    session_id := none
    files_uploaded := false
    columns_identified := false
    matching_completed := false }

/-! ## WorkflowStateMachine: the button handlers -/

/-- The upload button handler (lines 370-401). The click is possible only when
the button is enabled (line 370: not `files_uploaded` and backend connected).
Returns the updated session and the list of error messages shown. -/
def upload_handler (s : Session) (bank_file invoice_file : Option UploadedFile)
    (connected : Bool) (transport : TransportOutcome UploadResponseBody) :
    Session × List String :=
  if s.files_uploaded || !connected then (s, [])
  else
    let bv := validate_file bank_file "Bank statement"
    let iv := validate_file invoice_file "Invoice"
    if !bv.1 || !iv.1 then
      (s, ["❌ Please fix the following issues:\n- " ++ (if !bv.1 then bv.2 else "")
            ++ "\n- " ++ (if !iv.1 then iv.2 else "")])
    else
      let re := (make_api_request "/upload" "POST" false true (fun _ => transport)).1
      if py_truthy_str re.2 then
        (s, ["❌ Upload failed: " ++ re.2.getD ""])
      else
        match re.1 with
        | some r =>
          if r.status_code = 200 then
            if r.body.success then
              ({ s with
                  upload_result := some r.body
                  session_id := some r.body.session_id
                  files_uploaded := true }, [])
            else
              (s, ["❌ Error during file processing: " ++ r.body.error.getD "Unknown error"])
          else
            (s, ["❌ Server error during upload: Status Code " ++ status_code_display (some r)])
        | none =>
          (s, ["❌ Server error during upload: Status Code "
                ++ status_code_display (none : Option (HttpResponse UploadResponseBody))])

/-- The column-identification button handler (lines 404-429). The Step 2
section renders only when `upload_result` and `session_id` are truthy (line
404), and the button is enabled only when columns are not yet identified and
the backend is connected (lines 407-408). -/
def identify_columns_handler (s : Session) (connected : Bool)
    (transport : TransportOutcome ColumnResponseBody) : Session × List String :=
  if !(s.upload_result.isSome && py_truthy_str s.session_id) then (s, [])
  else if s.columns_identified || !connected then (s, [])
  else
    let re := (make_api_request "/identify_columns" "POST" true false (fun _ => transport)).1
    if py_truthy_str re.2 then
      (s, ["❌ Column identification failed: " ++ re.2.getD ""])
    else
      match re.1 with
      | some r =>
        if r.status_code = 200 then
          if r.body.success then
            ({ s with
                column_identification_result := some r.body
                columns_identified := true }, [])
          else
            (s, ["❌ Column identification error: " ++ r.body.error.getD "Unknown error"])
        else
          (s, ["❌ Server error during column identification: Status Code "
                ++ status_code_display (some r)])
      | none =>
        (s, ["❌ Server error during column identification: Status Code "
              ++ status_code_display (none : Option (HttpResponse ColumnResponseBody))])

/-- The matching button handler (lines 432-459). The Step 3 section renders
only when `column_identification_result` and `session_id` are truthy (line
432), and the button is enabled only when matching is not yet completed and
the backend is connected (lines 436-437). -/
def match_handler (s : Session) (connected : Bool)
    (transport : TransportOutcome MatchResponseBody) : Session × List String :=
  if !(s.column_identification_result.isSome && py_truthy_str s.session_id) then (s, [])
  else if s.matching_completed || !connected then (s, [])
  else
    let re := (make_api_request "/match" "POST" true false (fun _ => transport)).1
    if py_truthy_str re.2 then
      (s, ["❌ Matching failed: " ++ re.2.getD ""])
    else
      match re.1 with
      | some r =>
        if r.status_code = 200 then
          if r.body.success then
            ({ s with
                matching_result := some r.body
                matching_completed := true }, [])
          else
            (s, ["❌ Matching error: " ++ r.body.error.getD "Unknown error"])
        else
          (s, ["❌ Server error during matching: Status Code " ++ status_code_display (some r)])
      | none =>
        (s, ["❌ Server error during matching: Status Code "
              ++ status_code_display (none : Option (HttpResponse MatchResponseBody))])

/-- The reset button handler (lines 514-523). The Reset section renders only
when some progress flag is set (lines 515-517); clicking deletes every session
key and the rerun re-initializes them to the defaults. -/
def reset_handler (s : Session) : Session × List String :=
  if s.files_uploaded || s.columns_identified || s.matching_completed then
    (initialize_session_state, [])
  else (s, [])

/-- One user-triggered workflow operation, with the environment it observes:
the chosen files, the cached connection status, and the transport outcome of
the backend call it would issue. -/
inductive Event where
  | upload (bank_file invoice_file : Option UploadedFile) (connected : Bool)
      (transport : TransportOutcome UploadResponseBody)
  | identify_columns (connected : Bool) (transport : TransportOutcome ColumnResponseBody)
  | run_match (connected : Bool) (transport : TransportOutcome MatchResponseBody)
  | reset

def run_event (s : Session) : Event → Session × List String
  | .upload b i c t => upload_handler s b i c t
  | .identify_columns c t => identify_columns_handler s c t
  | .run_match c t => match_handler s c t
  | .reset => reset_handler s

def apply_event (s : Session) (e : Event) : Session :=
  (run_event s e).1

/-! ## ResultExporter (download handlers, lines 467-512) -/

/-- Python dict assignment `row[k] = v`: update in place if the key exists,
otherwise append preserving insertion order. -/
def dict_insert (row : Row) (k : String) (v : JValue) : Row :=
  if k ∈ row.map Prod.fst then
    row.map (fun kv => if kv.1 = k then (k, v) else kv)
  else
    row ++ [(k, v)]

/-- The loop body of lines 472-482: flatten one match into a row with
`Bank_`-prefixed bank fields, `Invoice_`-prefixed invoice fields, the
confidence score and the match reason. -/
def flatten_match (m : MatchRecord) : Row :=
  let row : Row := []
  let row := m.file_a_entry.foldl (fun r kv => dict_insert r ("Bank_" ++ kv.1) kv.2) row
  let row := m.file_b_entry.foldl (fun r kv => dict_insert r ("Invoice_" ++ kv.1) kv.2) row
  let row := dict_insert row "Confidence_Score" m.confidence_score
  dict_insert row "Match_Reason" (JValue.str m.match_reason)

/-- `matched_data` as built by lines 470-482: one flattened row appended per
entry of `matching_result['matches']`. -/
def matched_rows (m : MatchResponseBody) : List Row :=
  (m.«matches».getD []).foldl (fun acc mr => acc ++ [flatten_match mr]) []

/-- A top-level value of the JSON report (an object, a list of rows, or the
list of match records). -/
inductive ReportValue where
  | obj (fields : Row)
  | rowList (rows : List Row)
  | matchList (ms : List MatchRecord)
deriving DecidableEq, Repr

/-- `report_data` as built by lines 498-504: the five top-level entries of the
downloadable JSON report, each read from `matching_result` with `.get` and an
empty default. -/
def report_data (m : MatchResponseBody) : List (String × ReportValue) :=
  [("summary", .obj (m.summary.getD [])),
   ("matches", .matchList (m.«matches».getD [])),
   ("unmatched_bank", .rowList (m.unmatched_file_a_entries.getD [])),
   ("unmatched_invoices", .rowList (m.unmatched_file_b_entries.getD [])),
   ("column_info", .obj (m.column_info.getD []))]

/-- First-match association lookup in a row, scanning left to right. -/
def row_lookup (k : String) : Row → Option JValue
  | [] => none
  | kv :: rest => if kv.1 = k then some kv.2 else row_lookup k rest

/-! ## Failure classification and guards for workflow events -/

/-- Whether a transport outcome counts as a failed operation for a handler
whose response body reports success through `succ`: any transport error, any
non-200 status, or a 200 response with a falsy success field. -/
def response_fails {β : Type} (succ : β → Bool) : TransportOutcome β → Bool
  | .response r => !(decide (r.status_code = 200) && succ r.body)
  | _ => true

/-- Whether the backend interaction of an event fails (reset performs none). -/
def event_outcome_fails : Event → Bool
  | .upload _ _ _ t => response_fails UploadResponseBody.success t
  | .identify_columns _ t => response_fails ColumnResponseBody.success t
  | .run_match _ t => response_fails MatchResponseBody.success t
  | .reset => false

/-- Whether, in state `s`, the event actually reaches its backend call: the
stage guard admits the click and, for upload, both files validate. -/
def operation_invoked (s : Session) : Event → Bool
  | .upload b i c _ => !s.files_uploaded && c && (validate_file b "Bank statement").1
      && (validate_file i "Invoice").1
  | .identify_columns c _ => s.upload_result.isSome && py_truthy_str s.session_id
      && !s.columns_identified && c
  | .run_match c _ => s.column_identification_result.isSome && py_truthy_str s.session_id
      && !s.matching_completed && c
  | .reset => false

/-- Whether an event is an upload whose backend call returned HTTP 200 with a
truthy success field. -/
def upload_succeeded : Event → Bool
  | .upload _ _ _ (.response r) => decide (r.status_code = 200) && r.body.success
  | _ => false

/-- The C1 invariant: a stage of columns-identified or matching-completed
implies a present session id. -/
def session_stage_inv (s : Session) : Prop :=
  (s.columns_identified || s.matching_completed) = true → s.session_id.isSome = true

/-- Stored results and the session id are absent whenever the corresponding
progress flag is clear; with all flags clear this pins the empty session. -/
def cleared_inv (s : Session) : Prop :=
  (s.files_uploaded = false → s.upload_result = none ∧ s.session_id = none)
  ∧ (s.columns_identified = false → s.column_identification_result = none)
  ∧ (s.matching_completed = false → s.matching_result = none)

/-! ## Helper lemmas -/

lemma split_chars_of_not_mem (sep : Char) (l : List Char) (h : sep ∉ l) :
    split_chars sep l = [l] := by
  induction l with
  | nil => rfl
  | cons c rest ih =>
    simp only [List.mem_cons, not_or] at h
    rw [split_chars, if_neg (fun hc => h.1 hc.symm), ih h.2]

lemma file_extension_of_no_dot (name : String) (h : '.' ∉ name.data) :
    file_extension_of name = py_lower name := by
  unfold file_extension_of py_split
  rw [split_chars_of_not_mem _ _ h]
  rfl

lemma transport_ne_resp (a : ProbeAttempt) (h : is_transport_failure a = true)
    (s : Nat) (t : String) : a ≠ .resp s t := by
  cases a <;> simp_all [is_transport_failure]

lemma resp_of_not_transport (a : ProbeAttempt) (h : is_transport_failure a = false) :
    ∃ s t, a = .resp s t := by
  cases a <;> simp_all [is_transport_failure]

lemma loop_step_transport (oracle : Nat → ProbeAttempt) (i : Nat) (rest : List Nat)
    (h : is_transport_failure (oracle i) = true) (hne : rest ≠ []) :
    test_backend_connection_loop oracle (i :: rest) =
      ⟨(test_backend_connection_loop oracle rest).ok,
       (test_backend_connection_loop oracle rest).msg,
       (test_backend_connection_loop oracle rest).attempts + 1,
       2 * 2 ^ i :: (test_backend_connection_loop oracle rest).waits⟩ := by
  cases ho : oracle i
  case resp s t => rw [ho] at h; simp [is_transport_failure] at h
  all_goals simp [test_backend_connection_loop, ho, hne]

lemma loop_last_transport (oracle : Nat → ProbeAttempt) (i : Nat)
    (h : is_transport_failure (oracle i) = true) :
    test_backend_connection_loop oracle [i] = ⟨false, final_failure_msg (oracle i), 1, []⟩ := by
  cases ho : oracle i
  case resp s t => rw [ho] at h; simp [is_transport_failure] at h
  all_goals simp [test_backend_connection_loop, final_failure_msg, ho]

lemma loop_resp (oracle : Nat → ProbeAttempt) (i : Nat) (rest : List Nat)
    (s : Nat) (t : String) (h : oracle i = .resp s t) :
    test_backend_connection_loop oracle (i :: rest) =
      if s = 200 then ⟨true, "Connected (HTTP " ++ toString s ++ ")", 1, []⟩
      else ⟨false, "HTTP " ++ toString s ++ ": " ++ py_truncate t 100, 1, []⟩ := by
  simp [test_backend_connection_loop, h]

/-! ## Claims about FileValidator -/

/-- C6: `validate_file` checks its rules in a fixed order with first failure
winning: an absent file is rejected as missing; a present file strictly larger
than 50 MiB is rejected as too large regardless of extension; a
size-conforming file whose lowercased extension (the substring after the last
dot) is not csv, xlsx or xls is rejected as unsupported; otherwise it is
valid. The function is pure, so determinism is inherent. -/
theorem validate_file_rule_order (f : UploadedFile) (t : String) :
    validate_file none t = (false, t ++ " file is required")
    ∧ (50 * 1024 * 1024 < f.size →
        validate_file (some f) t = (false, t ++ " file is too large (max 50MB)"))
    ∧ (f.size ≤ 50 * 1024 * 1024 → file_extension_of f.name ∉ allowed_extensions →
        validate_file (some f) t = (false, t ++ " must be one of: csv, xlsx, xls"))
    ∧ (f.size ≤ 50 * 1024 * 1024 → file_extension_of f.name ∈ allowed_extensions →
        validate_file (some f) t = (true, "Valid")) := by
  have hi : String.intercalate ", " allowed_extensions = "csv, xlsx, xls" := rfl
  refine ⟨rfl, fun h => ?_, fun h1 h2 => ?_, fun h1 h2 => ?_⟩
  · simp [validate_file, h]
  · simp [validate_file, Nat.not_lt.mpr h1, h2, hi, String.append_assoc]
  · simp [validate_file, Nat.not_lt.mpr h1, h2]

/-- Witness for C6 at concrete files: an uppercase-extension file passes, an
oversized csv is rejected as too large, and an unsupported extension is
rejected with the extension message. -/
theorem validate_file_rule_order_witness :
    validate_file (some ⟨"data.XLSX", 123⟩) "Bank statement" = (true, "Valid")
    ∧ validate_file (some ⟨"huge.csv", 52428801⟩) "Invoice"
        = (false, "Invoice" ++ " file is too large (max 50MB)")
    ∧ validate_file (some ⟨"notes.pdf", 10⟩) "Invoice"
        = (false, "Invoice" ++ " must be one of: csv, xlsx, xls") :=
  ⟨(validate_file_rule_order ⟨"data.XLSX", 123⟩ "Bank statement").2.2.2 (by decide) (by decide),
   (validate_file_rule_order ⟨"huge.csv", 52428801⟩ "Invoice").2.1 (by decide),
   (validate_file_rule_order ⟨"notes.pdf", 10⟩ "Invoice").2.2.1 (by decide) (by decide)⟩

/-- C10: for a present, size-conforming file whose name contains no dot, the
computed extension is the entire lowercased name, so a dotless name whose
lowercase form is exactly csv, xlsx or xls passes validation and every other
dotless name is rejected as unsupported. -/
theorem dotless_name_is_own_extension (f : UploadedFile) (t : String)
    (hdot : '.' ∉ f.name.data) (hsize : f.size ≤ 50 * 1024 * 1024) :
    file_extension_of f.name = py_lower f.name
    ∧ (py_lower f.name ∈ allowed_extensions → validate_file (some f) t = (true, "Valid"))
    ∧ (py_lower f.name ∉ allowed_extensions →
        validate_file (some f) t = (false, t ++ " must be one of: csv, xlsx, xls")) := by
  have hext := file_extension_of_no_dot f.name hdot
  have hi : String.intercalate ", " allowed_extensions = "csv, xlsx, xls" := rfl
  refine ⟨hext, fun h => ?_, fun h => ?_⟩
  · simp [validate_file, Nat.not_lt.mpr hsize, hext, h]
  · simp [validate_file, Nat.not_lt.mpr hsize, hext, h, hi, String.append_assoc]

/-- Witness for C10: the dotless names CSV (accepted, any letter case) and
readme (rejected) at concrete sizes. -/
theorem dotless_name_is_own_extension_witness :
    validate_file (some ⟨"CSV", 10⟩) "Invoice" = (true, "Valid")
    ∧ validate_file (some ⟨"readme", 10⟩) "Invoice"
        = (false, "Invoice" ++ " must be one of: csv, xlsx, xls") :=
  ⟨(dotless_name_is_own_extension ⟨"CSV", 10⟩ "Invoice" (by decide) (by decide)).2.1 (by decide),
   (dotless_name_is_own_extension ⟨"readme", 10⟩ "Invoice" (by decide) (by decide)).2.2
     (by decide)⟩

/-! ## Claims about RequestClient -/

/-- C5: for a valid method dispatch, `make_api_request` performs exactly one
physical request and classifies the outcome: a received HTTP response of any
status is returned as a success with no error string, a timeout and a
connection failure map to their fixed messages, and any other exception maps
to a message carrying the exception text. No retry happens at this layer. -/
theorem request_outcome_classification {β : Type} (endpoint method : String)
    (has_data has_files : Bool) (transport : Nat → TransportOutcome β)
    (h : valid_request_method method has_data has_files = true) :
    (make_api_request endpoint method has_data has_files transport).2 = 1
    ∧ (∀ r : HttpResponse β, transport 0 = .response r →
        (make_api_request endpoint method has_data has_files transport).1 = (some r, none))
    ∧ (transport 0 = .timeout →
        (make_api_request endpoint method has_data has_files transport).1 =
          (none, some "Request timed out. The operation may be taking longer than expected."))
    ∧ (transport 0 = .connectionError →
        (make_api_request endpoint method has_data has_files transport).1 =
          (none, some "Failed to connect to backend. The service may be starting up."))
    ∧ (∀ m, transport 0 = .otherException m →
        (make_api_request endpoint method has_data has_files transport).1 =
          (none, some ("Request failed: " ++ m))) := by
  refine ⟨?_, fun r hr => ?_, fun hr => ?_, fun hr => ?_, fun m hr => ?_⟩
  · cases ht : transport 0 <;> simp [make_api_request, h, ht]
  all_goals simp [make_api_request, h, hr]

/-- Witness for C5: a GET receiving a 503 response is still a transport-level
success carrying the response. -/
theorem request_outcome_classification_witness :
    (make_api_request "/health" "GET" false false
        (fun _ => TransportOutcome.response (⟨503, ()⟩ : HttpResponse Unit))).1
      = (some ⟨503, ()⟩, none) :=
  (request_outcome_classification "/health" "GET" false false
      (fun _ => TransportOutcome.response (⟨503, ()⟩ : HttpResponse Unit)) (by decide)).2.1
    ⟨503, ()⟩ rfl

/-! ## Claims about ResilientConnectionProbe -/

/-- C3 counterexample: when all three attempts time out at transport level,
the probe returns the fixed timeout message of the final attempt, not the
`Max retries exceeded` result of the post-loop return, which is unreachable. -/
theorem max_retries_message_unreachable :
    (∀ i, i < 3 →
      is_transport_failure ((fun _ => ProbeAttempt.timeoutErr) i) = true)
    ∧ (test_backend_connection (fun _ => ProbeAttempt.timeoutErr)).msg
        ≠ "Max retries exceeded" := by
  decide

/-- C3 amended: for every execution in which all 3 attempts fail at the
transport level, the probe returns failure after exactly 3 attempts with
backoff waits of 2 and 4 seconds, carrying the classified error message of the
final attempt (for a timeout, the fixed sleeping-backend message) rather than
the unreachable `Max retries exceeded` result. -/
theorem probe_exhaustion_returns_final_error (oracle : Nat → ProbeAttempt)
    (h : ∀ i, i < 3 → is_transport_failure (oracle i) = true) :
    test_backend_connection oracle = ⟨false, final_failure_msg (oracle 2), 3, [2, 4]⟩ := by
  have h0 := h 0 (by omega)
  have h1 := h 1 (by omega)
  have h2 := h 2 (by omega)
  rw [test_backend_connection,
      loop_step_transport oracle 0 [1, 2] h0 (by simp),
      loop_step_transport oracle 1 [2] h1 (by simp),
      loop_last_transport oracle 2 h2]
  norm_num

/-- Witness for C3 amended: three connection errors yield the final
connection-error message after 3 attempts and waits of 2 and 4 seconds. -/
theorem probe_exhaustion_returns_final_error_witness :
    test_backend_connection (fun _ => ProbeAttempt.connErr "refused")
      = ⟨false, "Connection Error: refused", 3, [2, 4]⟩ :=
  probe_exhaustion_returns_final_error (fun _ => ProbeAttempt.connErr "refused")
    (by decide)

/-! ## Claims about ResultExporter -/

/-- C9 counterexample: at a concrete matching result, the report has the five
listed top-level keys, so its key count is not four as the claim states. -/
theorem report_keys_not_four :
    (report_data ⟨true, none, none, none, none, none, none, none⟩).map Prod.fst
      = ["summary", "matches", "unmatched_bank", "unmatched_invoices", "column_info"]
    ∧ ((report_data ⟨true, none, none, none, none, none, none, none⟩).map Prod.fst).length
        ≠ 4 := by
  decide

/-- C9 amended: for every stored matching result, the JSON report has exactly
five top-level keys, in order summary, matches, unmatched_bank,
unmatched_invoices and column_info, holding the backend summary, the match
list, both unmatched sets and the column info verbatim (with the empty
object or list when the backend omitted the field). -/
theorem report_has_five_keys (m : MatchResponseBody) :
    (report_data m).map Prod.fst
      = ["summary", "matches", "unmatched_bank", "unmatched_invoices", "column_info"]
    ∧ (report_data m).lookup "summary" = some (.obj (m.summary.getD []))
    ∧ (report_data m).lookup "matches" = some (.matchList (m.«matches».getD []))
    ∧ (report_data m).lookup "unmatched_bank"
        = some (.rowList (m.unmatched_file_a_entries.getD []))
    ∧ (report_data m).lookup "unmatched_invoices"
        = some (.rowList (m.unmatched_file_b_entries.getD []))
    ∧ (report_data m).lookup "column_info" = some (.obj (m.column_info.getD [])) :=
  ⟨rfl, rfl, rfl, rfl, rfl, rfl⟩

/-! ### Probe run shapes, by position of the first response -/

lemma probe_run_resp0 (oracle : Nat → ProbeAttempt) (s : Nat) (t : String)
    (h : oracle 0 = .resp s t) :
    test_backend_connection oracle =
      if s = 200 then ⟨true, "Connected (HTTP " ++ toString s ++ ")", 1, []⟩
      else ⟨false, "HTTP " ++ toString s ++ ": " ++ py_truncate t 100, 1, []⟩ :=
  loop_resp oracle 0 [1, 2] s t h

lemma probe_run_resp1 (oracle : Nat → ProbeAttempt) (s : Nat) (t : String)
    (b0 : is_transport_failure (oracle 0) = true) (h : oracle 1 = .resp s t) :
    test_backend_connection oracle =
      if s = 200 then ⟨true, "Connected (HTTP " ++ toString s ++ ")", 2, [2]⟩
      else ⟨false, "HTTP " ++ toString s ++ ": " ++ py_truncate t 100, 2, [2]⟩ := by
  rw [test_backend_connection, loop_step_transport oracle 0 [1, 2] b0 (by simp),
      loop_resp oracle 1 [2] s t h]
  split_ifs <;> norm_num

lemma probe_run_resp2 (oracle : Nat → ProbeAttempt) (s : Nat) (t : String)
    (b0 : is_transport_failure (oracle 0) = true)
    (b1 : is_transport_failure (oracle 1) = true) (h : oracle 2 = .resp s t) :
    test_backend_connection oracle =
      if s = 200 then ⟨true, "Connected (HTTP " ++ toString s ++ ")", 3, [2, 4]⟩
      else ⟨false, "HTTP " ++ toString s ++ ": " ++ py_truncate t 100, 3, [2, 4]⟩ := by
  rw [test_backend_connection, loop_step_transport oracle 0 [1, 2] b0 (by simp),
      loop_step_transport oracle 1 [2] b1 (by simp), loop_resp oracle 2 [] s t h]
  split_ifs <;> norm_num

lemma probe_run_all_transport (oracle : Nat → ProbeAttempt)
    (b0 : is_transport_failure (oracle 0) = true)
    (b1 : is_transport_failure (oracle 1) = true)
    (b2 : is_transport_failure (oracle 2) = true) :
    test_backend_connection oracle = ⟨false, final_failure_msg (oracle 2), 3, [2, 4]⟩ := by
  rw [test_backend_connection, loop_step_transport oracle 0 [1, 2] b0 (by simp),
      loop_step_transport oracle 1 [2] b1 (by simp), loop_last_transport oracle 2 b2]
  norm_num

/-- C4: the probe returns success exactly when some executed attempt receives
HTTP 200; a response with any other status code makes the probe return the
bad-status failure immediately on that attempt, consuming no further attempts
and sleeping no backoff beyond the waits already spent on earlier
transport-level failures. -/
theorem probe_success_iff_http_200 (oracle : Nat → ProbeAttempt) :
    ((test_backend_connection oracle).ok = true ↔
      ∃ k, k < (test_backend_connection oracle).attempts ∧ ∃ t, oracle k = .resp 200 t)
    ∧ (∀ k s t, k < 3 → (∀ j, j < k → is_transport_failure (oracle j) = true) →
        oracle k = .resp s t → s ≠ 200 →
        test_backend_connection oracle =
          ⟨false, "HTTP " ++ toString s ++ ": " ++ py_truncate t 100, k + 1,
            (List.range k).map (fun j => 2 * 2 ^ j)⟩) := by
  constructor
  · by_cases b0 : is_transport_failure (oracle 0) = true
    · by_cases b1 : is_transport_failure (oracle 1) = true
      · by_cases b2 : is_transport_failure (oracle 2) = true
        · rw [probe_run_all_transport oracle b0 b1 b2]
          constructor
          · intro h; simp at h
          · rintro ⟨k, hk, t, ht⟩
            simp at hk
            interval_cases k
            · exact absurd ht (transport_ne_resp _ b0 200 t)
            · exact absurd ht (transport_ne_resp _ b1 200 t)
            · exact absurd ht (transport_ne_resp _ b2 200 t)
        · have b2' : is_transport_failure (oracle 2) = false := by simpa using b2
          obtain ⟨s2, t2, e2⟩ := resp_of_not_transport _ b2'
          rw [probe_run_resp2 oracle s2 t2 b0 b1 e2]
          by_cases hs : s2 = 200
          · subst hs
            rw [if_pos rfl]
            exact ⟨fun _ => ⟨2, by norm_num, t2, e2⟩, fun _ => rfl⟩
          · rw [if_neg hs]
            constructor
            · intro h; simp at h
            · rintro ⟨k, hk, t, ht⟩
              simp at hk
              interval_cases k
              · exact absurd ht (transport_ne_resp _ b0 200 t)
              · exact absurd ht (transport_ne_resp _ b1 200 t)
              · rw [e2] at ht
                simp at ht
                exact absurd ht.1 hs
      · have b1' : is_transport_failure (oracle 1) = false := by simpa using b1
        obtain ⟨s1, t1, e1⟩ := resp_of_not_transport _ b1'
        rw [probe_run_resp1 oracle s1 t1 b0 e1]
        by_cases hs : s1 = 200
        · subst hs
          rw [if_pos rfl]
          exact ⟨fun _ => ⟨1, by norm_num, t1, e1⟩, fun _ => rfl⟩
        · rw [if_neg hs]
          constructor
          · intro h; simp at h
          · rintro ⟨k, hk, t, ht⟩
            simp at hk
            interval_cases k
            · exact absurd ht (transport_ne_resp _ b0 200 t)
            · rw [e1] at ht
              simp at ht
              exact absurd ht.1 hs
    · have b0' : is_transport_failure (oracle 0) = false := by simpa using b0
      obtain ⟨s0, t0, e0⟩ := resp_of_not_transport _ b0'
      rw [probe_run_resp0 oracle s0 t0 e0]
      by_cases hs : s0 = 200
      · subst hs
        rw [if_pos rfl]
        exact ⟨fun _ => ⟨0, by norm_num, t0, e0⟩, fun _ => rfl⟩
      · rw [if_neg hs]
        constructor
        · intro h; simp at h
        · rintro ⟨k, hk, t, ht⟩
          simp at hk
          subst hk
          rw [e0] at ht
          simp at ht
          exact absurd ht.1 hs
  · intro k s t hk hall hkresp hs
    interval_cases k
    · rw [probe_run_resp0 oracle s t hkresp, if_neg hs]
      simp
    · rw [probe_run_resp1 oracle s t (hall 0 (by omega)) hkresp, if_neg hs]
      norm_num [List.range_succ]
    · rw [probe_run_resp2 oracle s t (hall 0 (by omega)) (hall 1 (by omega)) hkresp, if_neg hs]
      norm_num [List.range_succ]

/-- Witness for C4: a 500 response on the first attempt ends the probe at once
with the bad-status message, one attempt executed and no backoff. -/
theorem probe_success_iff_http_200_witness :
    test_backend_connection (fun _ => ProbeAttempt.resp 500 "Server Error")
      = ⟨false, "HTTP " ++ toString 500 ++ ": " ++ py_truncate "Server Error" 100, 1, []⟩ :=
  (probe_success_iff_http_200 (fun _ => ProbeAttempt.resp 500 "Server Error")).2
    0 500 "Server Error" (by omega) (fun j hj => absurd hj (by omega)) rfl (by decide)

/-! ### Handler dichotomies: each handler either leaves the session unchanged
or performs its single success update under its guard conditions -/

lemma upload_handler_dichotomy (s : Session) (b i : Option UploadedFile) (c : Bool)
    (t : TransportOutcome UploadResponseBody) :
    (upload_handler s b i c t).1 = s
    ∨ ∃ r, t = .response r ∧ r.status_code = 200 ∧ r.body.success = true
        ∧ s.files_uploaded = false ∧ c = true
        ∧ (upload_handler s b i c t).1 =
            { s with
              upload_result := some r.body
              session_id := some r.body.session_id
              files_uploaded := true } := by
  cases hfu : s.files_uploaded with
  | true => left; simp [upload_handler, hfu]
  | false =>
  cases c with
  | false => left; simp [upload_handler, hfu]
  | true =>
  by_cases hv : (!(validate_file b "Bank statement").1 || !(validate_file i "Invoice").1) = true
  · left; simp [upload_handler, hfu, hv]
  · simp only [Bool.not_eq_true] at hv
    cases t with
    | response r =>
      by_cases h200 : r.status_code = 200
      · by_cases hsucc : r.body.success = true
        · right
          refine ⟨r, rfl, h200, hsucc, rfl, rfl, ?_⟩
          simp [upload_handler, hfu, hv, make_api_request, valid_request_method,
            py_truthy_str, h200, hsucc]
        · simp only [Bool.not_eq_true] at hsucc
          left
          simp [upload_handler, hfu, hv, make_api_request, valid_request_method,
            py_truthy_str, h200, hsucc]
      · left
        simp [upload_handler, hfu, hv, make_api_request, valid_request_method,
          py_truthy_str, h200]
    | timeout =>
      left
      simp [upload_handler, hfu, hv, make_api_request, valid_request_method, py_truthy_str]
    | connectionError =>
      left
      simp [upload_handler, hfu, hv, make_api_request, valid_request_method, py_truthy_str]
    | otherException m =>
      left
      simp [upload_handler, hfu, hv, make_api_request, valid_request_method]
      split_ifs <;> rfl

@[simp] lemma py_truthy_str_none : py_truthy_str none = false := rfl

@[simp] lemma py_truthy_timeout_msg :
    py_truthy_str
      (some "Request timed out. The operation may be taking longer than expected.") = true := rfl

@[simp] lemma py_truthy_conn_msg :
    py_truthy_str
      (some "Failed to connect to backend. The service may be starting up.") = true := rfl

lemma identify_handler_dichotomy (s : Session) (c : Bool)
    (t : TransportOutcome ColumnResponseBody) :
    (identify_columns_handler s c t).1 = s
    ∨ ∃ r, t = .response r ∧ r.status_code = 200 ∧ r.body.success = true
        ∧ s.upload_result.isSome = true ∧ py_truthy_str s.session_id = true
        ∧ s.columns_identified = false ∧ c = true
        ∧ (identify_columns_handler s c t).1 =
            { s with
              column_identification_result := some r.body
              columns_identified := true } := by
  by_cases hsec : (s.upload_result.isSome && py_truthy_str s.session_id) = true
  · cases hci : s.columns_identified with
    | true => left; simp [identify_columns_handler, hsec, hci]
    | false =>
    cases c with
    | false => left; simp [identify_columns_handler, hsec, hci]
    | true =>
    simp only [Bool.and_eq_true] at hsec
    cases t with
    | response r =>
      by_cases h200 : r.status_code = 200
      · by_cases hsucc : r.body.success = true
        · right
          refine ⟨r, rfl, h200, hsucc, hsec.1, hsec.2, rfl, rfl, ?_⟩
          simp [identify_columns_handler, hsec, hci, make_api_request,
            valid_request_method, h200, hsucc]
        · simp only [Bool.not_eq_true] at hsucc
          left
          simp [identify_columns_handler, hsec, hci, make_api_request,
            valid_request_method, h200, hsucc]
      · left
        simp [identify_columns_handler, hsec, hci, make_api_request,
          valid_request_method, h200]
    | timeout =>
      left
      simp [identify_columns_handler, hsec, hci, make_api_request, valid_request_method]
    | connectionError =>
      left
      simp [identify_columns_handler, hsec, hci, make_api_request, valid_request_method]
    | otherException m =>
      left
      simp [identify_columns_handler, hsec, hci, make_api_request, valid_request_method]
      split_ifs <;> rfl
  · simp only [Bool.not_eq_true] at hsec
    left
    simp [identify_columns_handler, hsec]

lemma match_handler_dichotomy (s : Session) (c : Bool)
    (t : TransportOutcome MatchResponseBody) :
    (match_handler s c t).1 = s
    ∨ ∃ r, t = .response r ∧ r.status_code = 200 ∧ r.body.success = true
        ∧ s.column_identification_result.isSome = true ∧ py_truthy_str s.session_id = true
        ∧ s.matching_completed = false ∧ c = true
        ∧ (match_handler s c t).1 =
            { s with
              matching_result := some r.body
              matching_completed := true } := by
  by_cases hsec : (s.column_identification_result.isSome && py_truthy_str s.session_id) = true
  · cases hmc : s.matching_completed with
    | true => left; simp [match_handler, hsec, hmc]
    | false =>
    cases c with
    | false => left; simp [match_handler, hsec, hmc]
    | true =>
    simp only [Bool.and_eq_true] at hsec
    cases t with
    | response r =>
      by_cases h200 : r.status_code = 200
      · by_cases hsucc : r.body.success = true
        · right
          refine ⟨r, rfl, h200, hsucc, hsec.1, hsec.2, rfl, rfl, ?_⟩
          simp [match_handler, hsec, hmc, make_api_request, valid_request_method,
            h200, hsucc]
        · simp only [Bool.not_eq_true] at hsucc
          left
          simp [match_handler, hsec, hmc, make_api_request, valid_request_method,
            h200, hsucc]
      · left
        simp [match_handler, hsec, hmc, make_api_request, valid_request_method,
          h200]
    | timeout =>
      left
      simp [match_handler, hsec, hmc, make_api_request, valid_request_method]
    | connectionError =>
      left
      simp [match_handler, hsec, hmc, make_api_request, valid_request_method]
    | otherException m =>
      left
      simp [match_handler, hsec, hmc, make_api_request, valid_request_method]
      split_ifs <;> rfl
  · simp only [Bool.not_eq_true] at hsec
    left
    simp [match_handler, hsec]

lemma reset_handler_cases (s : Session) :
    (reset_handler s).1 = s ∨ (reset_handler s).1 = initialize_session_state := by
  unfold reset_handler
  split
  · exact Or.inr rfl
  · exact Or.inl rfl

/-! ### Invariant preservation over event sequences -/

lemma isSome_of_py_truthy (o : Option String) (h : py_truthy_str o = true) :
    o.isSome = true := by
  cases o <;> simp_all [py_truthy_str]

lemma stage_inv_step (s : Session) (e : Event) (h : session_stage_inv s) :
    session_stage_inv (apply_event s e) := by
  cases e with
  | upload b i c t =>
    rcases upload_handler_dichotomy s b i c t with h1 | ⟨r, -, -, -, -, -, h1⟩
    · simpa [session_stage_inv, apply_event, run_event, h1] using h
    · simp [session_stage_inv, apply_event, run_event, h1]
  | identify_columns c t =>
    rcases identify_handler_dichotomy s c t with h1 | ⟨r, -, -, -, -, hsid, -, -, h1⟩
    · simpa [session_stage_inv, apply_event, run_event, h1] using h
    · simp only [session_stage_inv, apply_event, run_event, h1]
      intro _
      simpa using isSome_of_py_truthy _ hsid
  | run_match c t =>
    rcases match_handler_dichotomy s c t with h1 | ⟨r, -, -, -, -, hsid, -, -, h1⟩
    · simpa [session_stage_inv, apply_event, run_event, h1] using h
    · simp only [session_stage_inv, apply_event, run_event, h1]
      intro _
      simpa using isSome_of_py_truthy _ hsid
  | reset =>
    rcases reset_handler_cases s with h1 | h1
    · simpa [session_stage_inv, apply_event, run_event, h1] using h
    · simp [session_stage_inv, apply_event, run_event, h1, initialize_session_state]

lemma stage_inv_foldl (evs : List Event) (s : Session) (h : session_stage_inv s) :
    session_stage_inv (evs.foldl apply_event s) := by
  induction evs generalizing s with
  | nil => exact h
  | cons e rest ih => exact ih _ (stage_inv_step s e h)

lemma session_id_source_step (s : Session) (e : Event)
    (h : (apply_event s e).session_id.isSome = true) :
    s.session_id.isSome = true ∨ upload_succeeded e = true := by
  cases e with
  | upload b i c t =>
    rcases upload_handler_dichotomy s b i c t with h1 | ⟨r, ht, h200, hsucc, -, -, -⟩
    · left; simpa [apply_event, run_event, h1] using h
    · right; subst ht; simp [upload_succeeded, h200, hsucc]
  | identify_columns c t =>
    left
    rcases identify_handler_dichotomy s c t with h1 | ⟨r, -, -, -, -, -, -, -, h1⟩ <;>
      simpa [apply_event, run_event, h1] using h
  | run_match c t =>
    left
    rcases match_handler_dichotomy s c t with h1 | ⟨r, -, -, -, -, -, -, -, h1⟩ <;>
      simpa [apply_event, run_event, h1] using h
  | reset =>
    left
    rcases reset_handler_cases s with h1 | h1
    · simpa [apply_event, run_event, h1] using h
    · rw [show apply_event s .reset = (reset_handler s).1 from rfl, h1] at h
      simp [initialize_session_state] at h

lemma session_id_source_foldl (evs : List Event) (s : Session)
    (h : (evs.foldl apply_event s).session_id.isSome = true) :
    s.session_id.isSome = true ∨ evs.any upload_succeeded = true := by
  induction evs generalizing s with
  | nil => exact Or.inl h
  | cons e rest ih =>
    rcases ih (apply_event s e) h with h1 | h1
    · rcases session_id_source_step s e h1 with h2 | h2
      · exact Or.inl h2
      · right; simp [h2]
    · right; simp [h1]

/-! ## Claims about the WorkflowStateMachine -/

/-- C1: in every state reachable from the initial session by any sequence of
workflow events, a stage of columns-identified or matching-completed implies a
present session id, and a present session id implies that the sequence
contains an upload whose backend call succeeded. -/
theorem stage_requires_prior_successful_upload (evs : List Event) :
    (((evs.foldl apply_event initialize_session_state).columns_identified
        || (evs.foldl apply_event initialize_session_state).matching_completed) = true →
      (evs.foldl apply_event initialize_session_state).session_id.isSome = true)
    ∧ ((evs.foldl apply_event initialize_session_state).session_id.isSome = true →
      evs.any upload_succeeded = true) := by
  constructor
  · exact stage_inv_foldl evs initialize_session_state
      (by intro hx; simp [initialize_session_state] at hx)
  · intro h
    rcases session_id_source_foldl evs initialize_session_state h with h1 | h1
    · simp [initialize_session_state] at h1
    · exact h1

/-- Witness for C1: a successful upload followed by a successful column
identification reaches the columns-identified stage with a session id present,
and the trace contains the successful upload. -/
theorem stage_requires_prior_successful_upload_witness :
    (([Event.upload (some ⟨"a.csv", 10⟩) (some ⟨"b.csv", 10⟩) true
          (.response ⟨200, ⟨true, "sid123", none⟩⟩),
        Event.identify_columns true (.response ⟨200, ⟨true, [], none⟩⟩)].foldl
          apply_event initialize_session_state).session_id.isSome = true)
    ∧ ([Event.upload (some ⟨"a.csv", 10⟩) (some ⟨"b.csv", 10⟩) true
          (.response ⟨200, ⟨true, "sid123", none⟩⟩),
        Event.identify_columns true (.response ⟨200, ⟨true, [], none⟩⟩)].any
          upload_succeeded = true) := by
  have h := stage_requires_prior_successful_upload
    [Event.upload (some ⟨"a.csv", 10⟩) (some ⟨"b.csv", 10⟩) true
        (.response ⟨200, ⟨true, "sid123", none⟩⟩),
      Event.identify_columns true (.response ⟨200, ⟨true, [], none⟩⟩)]
  exact ⟨h.1 (by decide), h.2 (h.1 (by decide))⟩

lemma cleared_inv_initial : cleared_inv initialize_session_state := by
  refine ⟨fun _ => ⟨rfl, rfl⟩, fun _ => rfl, fun _ => rfl⟩

lemma cleared_inv_step (s : Session) (e : Event) (h : cleared_inv s) :
    cleared_inv (apply_event s e) := by
  obtain ⟨h1, h2, h3⟩ := h
  cases e with
  | upload b i c t =>
    rcases upload_handler_dichotomy s b i c t with hd | ⟨r, -, -, -, -, -, hd⟩
    · simpa [cleared_inv, apply_event, run_event, hd] using ⟨h1, h2, h3⟩
    · simp only [cleared_inv, apply_event, run_event, hd]
      exact ⟨fun hx => by simp at hx, h2, h3⟩
  | identify_columns c t =>
    rcases identify_handler_dichotomy s c t with hd | ⟨r, -, -, -, -, -, -, -, hd⟩
    · simpa [cleared_inv, apply_event, run_event, hd] using ⟨h1, h2, h3⟩
    · simp only [cleared_inv, apply_event, run_event, hd]
      exact ⟨h1, fun hx => by simp at hx, h3⟩
  | run_match c t =>
    rcases match_handler_dichotomy s c t with hd | ⟨r, -, -, -, -, -, -, -, hd⟩
    · simpa [cleared_inv, apply_event, run_event, hd] using ⟨h1, h2, h3⟩
    · simp only [cleared_inv, apply_event, run_event, hd]
      exact ⟨h1, h2, fun hx => by simp at hx⟩
  | reset =>
    rcases reset_handler_cases s with hd | hd
    · simpa [cleared_inv, apply_event, run_event, hd] using ⟨h1, h2, h3⟩
    · simp only [cleared_inv, apply_event, run_event, hd]
      exact cleared_inv_initial

lemma cleared_inv_foldl (evs : List Event) (s : Session) (h : cleared_inv s) :
    cleared_inv (evs.foldl apply_event s) := by
  induction evs generalizing s with
  | nil => exact h
  | cons e rest ih => exact ih _ (cleared_inv_step s e h)

lemma cleared_eq_initial (s : Session) (h : cleared_inv s)
    (hf : s.files_uploaded = false) (hc : s.columns_identified = false)
    (hm : s.matching_completed = false) : s = initialize_session_state := by
  obtain ⟨h1, h2, h3⟩ := h
  obtain ⟨hu, hs⟩ := h1 hf
  cases s
  simp_all [initialize_session_state]

lemma reset_of_cleared (s : Session) (h : cleared_inv s) :
    apply_event s .reset = initialize_session_state := by
  simp only [apply_event, run_event]
  unfold reset_handler
  split
  · rfl
  next hg =>
    simp only [Bool.or_eq_true, not_or, Bool.not_eq_true] at hg
    exact cleared_eq_initial s h hg.1.1 hg.1.2 hg.2

/-- C7: from every reachable state, the reset operation yields the empty
session (all progress flags clear, session id and stored results gone), and
it is idempotent: resetting twice gives the same empty session as resetting
once. When nothing has been reset-worthy (no progress flag set), the reset
control is not rendered, but a reachable flag-free state is already the empty
session, so the result holds from every reachable state. -/
theorem reset_always_yields_empty_session (evs : List Event) :
    apply_event (evs.foldl apply_event initialize_session_state) Event.reset
      = initialize_session_state
    ∧ apply_event (apply_event (evs.foldl apply_event initialize_session_state) Event.reset)
        Event.reset = initialize_session_state := by
  have hinv : cleared_inv (evs.foldl apply_event initialize_session_state) :=
    cleared_inv_foldl evs initialize_session_state cleared_inv_initial
  refine ⟨reset_of_cleared _ hinv, ?_⟩
  rw [reset_of_cleared _ hinv]
  exact reset_of_cleared _ cleared_inv_initial

/-! ### Error surfacing on failed invocations -/

lemma upload_fail_msgs (s : Session) (b i : Option UploadedFile) (c : Bool)
    (t : TransportOutcome UploadResponseBody)
    (hfail : response_fails UploadResponseBody.success t = true)
    (hinv : operation_invoked s (.upload b i c t) = true) :
    (upload_handler s b i c t).2 ≠ [] := by
  simp only [operation_invoked, Bool.and_eq_true, Bool.not_eq_true'] at hinv
  obtain ⟨⟨⟨hfu, hc⟩, hbv⟩, hiv⟩ := hinv
  subst hc
  cases t with
  | response r =>
    simp only [response_fails, Bool.not_eq_true'] at hfail
    by_cases h200 : r.status_code = 200
    · have hsucc : r.body.success = false := by simpa [h200] using hfail
      simp [upload_handler, hfu, hbv, hiv, make_api_request, valid_request_method,
        h200, hsucc]
    · simp [upload_handler, hfu, hbv, hiv, make_api_request, valid_request_method, h200]
  | timeout =>
    simp [upload_handler, hfu, hbv, hiv, make_api_request, valid_request_method]
  | connectionError =>
    simp [upload_handler, hfu, hbv, hiv, make_api_request, valid_request_method]
  | otherException m =>
    simp [upload_handler, hfu, hbv, hiv, make_api_request, valid_request_method]
    split_ifs <;> simp

lemma identify_fail_msgs (s : Session) (c : Bool) (t : TransportOutcome ColumnResponseBody)
    (hfail : response_fails ColumnResponseBody.success t = true)
    (hinv : operation_invoked s (.identify_columns c t) = true) :
    (identify_columns_handler s c t).2 ≠ [] := by
  simp only [operation_invoked, Bool.and_eq_true, Bool.not_eq_true'] at hinv
  obtain ⟨⟨⟨hur, hsid⟩, hci⟩, hc⟩ := hinv
  subst hc
  cases t with
  | response r =>
    simp only [response_fails, Bool.not_eq_true'] at hfail
    by_cases h200 : r.status_code = 200
    · have hsucc : r.body.success = false := by simpa [h200] using hfail
      simp [identify_columns_handler, hur, hsid, hci, make_api_request,
        valid_request_method, h200, hsucc]
    · simp [identify_columns_handler, hur, hsid, hci, make_api_request,
        valid_request_method, h200]
  | timeout =>
    simp [identify_columns_handler, hur, hsid, hci, make_api_request, valid_request_method]
  | connectionError =>
    simp [identify_columns_handler, hur, hsid, hci, make_api_request, valid_request_method]
  | otherException m =>
    simp [identify_columns_handler, hur, hsid, hci, make_api_request, valid_request_method]
    split_ifs <;> simp

lemma match_fail_msgs (s : Session) (c : Bool) (t : TransportOutcome MatchResponseBody)
    (hfail : response_fails MatchResponseBody.success t = true)
    (hinv : operation_invoked s (.run_match c t) = true) :
    (match_handler s c t).2 ≠ [] := by
  simp only [operation_invoked, Bool.and_eq_true, Bool.not_eq_true'] at hinv
  obtain ⟨⟨⟨hcr, hsid⟩, hmc⟩, hc⟩ := hinv
  subst hc
  cases t with
  | response r =>
    simp only [response_fails, Bool.not_eq_true'] at hfail
    by_cases h200 : r.status_code = 200
    · have hsucc : r.body.success = false := by simpa [h200] using hfail
      simp [match_handler, hcr, hsid, hmc, make_api_request, valid_request_method,
        h200, hsucc]
    · simp [match_handler, hcr, hsid, hmc, make_api_request, valid_request_method, h200]
  | timeout =>
    simp [match_handler, hcr, hsid, hmc, make_api_request, valid_request_method]
  | connectionError =>
    simp [match_handler, hcr, hsid, hmc, make_api_request, valid_request_method]
  | otherException m =>
    simp [match_handler, hcr, hsid, hmc, make_api_request, valid_request_method]
    split_ifs <;> simp

/-- C2: every workflow event whose backend interaction fails (transport error,
non-200 status, or 200 with a falsy success field) leaves the session exactly
as it was, and whenever the operation was actually invoked (its guards and
validations passed so the call was issued), at least one error message is
surfaced. -/
theorem failed_operation_leaves_session_unchanged (s : Session) (e : Event)
    (h : event_outcome_fails e = true) :
    (run_event s e).1 = s
    ∧ (operation_invoked s e = true → (run_event s e).2 ≠ []) := by
  constructor
  · cases e with
    | upload b i c t =>
      rcases upload_handler_dichotomy s b i c t with h1 | ⟨r, ht, h200, hsucc, -, -, -⟩
      · exact h1
      · subst ht
        simp [event_outcome_fails, response_fails, h200, hsucc] at h
    | identify_columns c t =>
      rcases identify_handler_dichotomy s c t with h1 | ⟨r, ht, h200, hsucc, -, -, -, -, -⟩
      · exact h1
      · subst ht
        simp [event_outcome_fails, response_fails, h200, hsucc] at h
    | run_match c t =>
      rcases match_handler_dichotomy s c t with h1 | ⟨r, ht, h200, hsucc, -, -, -, -, -⟩
      · exact h1
      · subst ht
        simp [event_outcome_fails, response_fails, h200, hsucc] at h
    | reset => simp [event_outcome_fails] at h
  · intro hinv
    cases e with
    | upload b i c t => exact upload_fail_msgs s b i c t h hinv
    | identify_columns c t => exact identify_fail_msgs s c t h hinv
    | run_match c t => exact match_fail_msgs s c t h hinv
    | reset => simp [operation_invoked] at hinv

/-- Witness for C2: an upload of two valid files that times out leaves the
initial session unchanged and surfaces an error message. -/
theorem failed_operation_leaves_session_unchanged_witness :
    (run_event initialize_session_state
        (Event.upload (some ⟨"a.csv", 10⟩) (some ⟨"b.csv", 10⟩) true .timeout)).1
      = initialize_session_state
    ∧ (run_event initialize_session_state
        (Event.upload (some ⟨"a.csv", 10⟩) (some ⟨"b.csv", 10⟩) true .timeout)).2 ≠ [] := by
  have h := failed_operation_leaves_session_unchanged initialize_session_state
    (Event.upload (some ⟨"a.csv", 10⟩) (some ⟨"b.csv", 10⟩) true .timeout) (by decide)
  exact ⟨h.1, h.2 (by decide)⟩

/-! ### Exporter machinery: flattening preserves every field under fresh keys -/

lemma foldl_append_singleton {α β : Type} (f : α → β) (l : List α) (acc : List β) :
    l.foldl (fun a x => a ++ [f x]) acc = acc ++ l.map f := by
  induction l generalizing acc with
  | nil => simp
  | cons x xs ih => simp [ih]

lemma matched_rows_eq_map (m : MatchResponseBody) :
    matched_rows m = (m.«matches».getD []).map flatten_match := by
  unfold matched_rows
  rw [foldl_append_singleton]
  rfl

lemma string_append_left_cancel (p a b : String) (h : p ++ a = p ++ b) : a = b := by
  have hd := congrArg String.data h
  rw [String.data_append, String.data_append] at hd
  exact String.ext (List.append_cancel_left hd)

lemma bank_ne_invoice (k k' : String) : "Bank_" ++ k ≠ "Invoice_" ++ k' := by
  intro h
  have hd := congrArg String.data h
  rw [String.data_append, String.data_append] at hd
  have hB : ("Bank_" : String).data = ['B', 'a', 'n', 'k', '_'] := rfl
  have hI : ("Invoice_" : String).data = ['I', 'n', 'v', 'o', 'i', 'c', 'e', '_'] := rfl
  rw [hB, hI] at hd
  simp at hd

lemma cs_ne_bank (k : String) : ("Confidence_Score" : String) ≠ "Bank_" ++ k := by
  intro h
  have hd := congrArg String.data h
  rw [String.data_append] at hd
  have hC : ("Confidence_Score" : String).data
      = ['C', 'o', 'n', 'f', 'i', 'd', 'e', 'n', 'c', 'e', '_', 'S', 'c', 'o', 'r', 'e'] := rfl
  have hB : ("Bank_" : String).data = ['B', 'a', 'n', 'k', '_'] := rfl
  rw [hC, hB] at hd
  simp at hd

lemma cs_ne_invoice (k : String) : ("Confidence_Score" : String) ≠ "Invoice_" ++ k := by
  intro h
  have hd := congrArg String.data h
  rw [String.data_append] at hd
  have hC : ("Confidence_Score" : String).data
      = ['C', 'o', 'n', 'f', 'i', 'd', 'e', 'n', 'c', 'e', '_', 'S', 'c', 'o', 'r', 'e'] := rfl
  have hI : ("Invoice_" : String).data = ['I', 'n', 'v', 'o', 'i', 'c', 'e', '_'] := rfl
  rw [hC, hI] at hd
  simp at hd

lemma mr_ne_bank (k : String) : ("Match_Reason" : String) ≠ "Bank_" ++ k := by
  intro h
  have hd := congrArg String.data h
  rw [String.data_append] at hd
  have hM : ("Match_Reason" : String).data
      = ['M', 'a', 't', 'c', 'h', '_', 'R', 'e', 'a', 's', 'o', 'n'] := rfl
  have hB : ("Bank_" : String).data = ['B', 'a', 'n', 'k', '_'] := rfl
  rw [hM, hB] at hd
  simp at hd

lemma mr_ne_invoice (k : String) : ("Match_Reason" : String) ≠ "Invoice_" ++ k := by
  intro h
  have hd := congrArg String.data h
  rw [String.data_append] at hd
  have hM : ("Match_Reason" : String).data
      = ['M', 'a', 't', 'c', 'h', '_', 'R', 'e', 'a', 's', 'o', 'n'] := rfl
  have hI : ("Invoice_" : String).data = ['I', 'n', 'v', 'o', 'i', 'c', 'e', '_'] := rfl
  rw [hM, hI] at hd
  simp at hd

lemma dict_insert_not_mem (r : Row) (k : String) (v : JValue)
    (h : k ∉ r.map Prod.fst) : dict_insert r k v = r ++ [(k, v)] := by
  simp [dict_insert, h]

lemma foldl_dict_insert_fresh (p : String) (entries : List (String × JValue)) :
    ∀ r : Row, (entries.map Prod.fst).Nodup →
      (∀ kv ∈ entries, (p ++ kv.1) ∉ r.map Prod.fst) →
      entries.foldl (fun acc kv => dict_insert acc (p ++ kv.1) kv.2) r
        = r ++ entries.map (fun kv => (p ++ kv.1, kv.2)) := by
  induction entries with
  | nil => intro r _ _; simp
  | cons kv rest ih =>
    intro r hnd hfresh
    have hnd' : kv.1 ∉ rest.map Prod.fst ∧ (rest.map Prod.fst).Nodup := by simpa using hnd
    rw [List.foldl_cons, dict_insert_not_mem r _ _ (hfresh kv (List.mem_cons_self _ _))]
    rw [ih (r ++ [(p ++ kv.1, kv.2)]) hnd'.2 ?_]
    · simp
    intro kv' hkv'
    simp only [List.map_append, List.mem_append, List.map_cons, List.map_nil,
      List.mem_singleton, not_or]
    refine ⟨hfresh kv' (List.mem_cons_of_mem _ hkv'), fun he => ?_⟩
    have hk : kv'.1 = kv.1 := string_append_left_cancel p _ _ he
    exact hnd'.1 (hk ▸ List.mem_map_of_mem Prod.fst hkv')

lemma flatten_match_eq (m : MatchRecord)
    (ha : (m.file_a_entry.map Prod.fst).Nodup)
    (hb : (m.file_b_entry.map Prod.fst).Nodup) :
    flatten_match m =
      m.file_a_entry.map (fun kv => ("Bank_" ++ kv.1, kv.2))
      ++ m.file_b_entry.map (fun kv => ("Invoice_" ++ kv.1, kv.2))
      ++ [("Confidence_Score", m.confidence_score),
          ("Match_Reason", JValue.str m.match_reason)] := by
  have hfb : ∀ kv ∈ m.file_b_entry,
      ("Invoice_" ++ kv.1)
        ∉ (m.file_a_entry.map (fun kv => ("Bank_" ++ kv.1, kv.2))).map Prod.fst := by
    intro kv hkv hmem
    rw [List.map_map] at hmem
    obtain ⟨x, -, he⟩ := List.mem_map.mp hmem
    exact bank_ne_invoice x.1 kv.1 he
  have hcs : ("Confidence_Score" : String) ∉
      ((m.file_a_entry.map (fun kv => ("Bank_" ++ kv.1, kv.2))
        ++ m.file_b_entry.map (fun kv => ("Invoice_" ++ kv.1, kv.2))).map Prod.fst) := by
    intro hmem
    rw [List.map_append] at hmem
    rcases List.mem_append.mp hmem with hm | hm
    · rw [List.map_map] at hm
      obtain ⟨x, -, he⟩ := List.mem_map.mp hm
      exact cs_ne_bank x.1 he.symm
    · rw [List.map_map] at hm
      obtain ⟨x, -, he⟩ := List.mem_map.mp hm
      exact cs_ne_invoice x.1 he.symm
  have hmr : ("Match_Reason" : String) ∉
      (((m.file_a_entry.map (fun kv => ("Bank_" ++ kv.1, kv.2))
        ++ m.file_b_entry.map (fun kv => ("Invoice_" ++ kv.1, kv.2)))
        ++ [("Confidence_Score", m.confidence_score)]).map Prod.fst) := by
    intro hmem
    rw [List.map_append] at hmem
    rcases List.mem_append.mp hmem with hm | hm
    · rw [List.map_append] at hm
      rcases List.mem_append.mp hm with hm2 | hm2
      · rw [List.map_map] at hm2
        obtain ⟨x, -, he⟩ := List.mem_map.mp hm2
        exact mr_ne_bank x.1 he.symm
      · rw [List.map_map] at hm2
        obtain ⟨x, -, he⟩ := List.mem_map.mp hm2
        exact mr_ne_invoice x.1 he.symm
    · simp at hm
  unfold flatten_match
  dsimp only
  rw [foldl_dict_insert_fresh "Bank_" m.file_a_entry [] ha (by simp), List.nil_append,
      foldl_dict_insert_fresh "Invoice_" m.file_b_entry _ hb hfb,
      dict_insert_not_mem _ _ _ hcs,
      dict_insert_not_mem _ _ _ hmr]
  simp

lemma row_lookup_append_right (k : String) (r1 r2 : Row) (h : k ∉ r1.map Prod.fst) :
    row_lookup k (r1 ++ r2) = row_lookup k r2 := by
  induction r1 with
  | nil => rfl
  | cons kv rest ih =>
    simp only [List.map_cons, List.mem_cons, not_or] at h
    rw [List.cons_append, row_lookup, if_neg (fun he => h.1 he.symm)]
    exact ih h.2

lemma row_lookup_append_left (k : String) (r1 r2 : Row) (v : JValue)
    (h : row_lookup k r1 = some v) : row_lookup k (r1 ++ r2) = some v := by
  induction r1 with
  | nil => simp [row_lookup] at h
  | cons kv rest ih =>
    rw [row_lookup] at h
    rw [List.cons_append, row_lookup]
    by_cases he : kv.1 = k
    · rw [if_pos he] at h ⊢
      exact h
    · rw [if_neg he] at h ⊢
      exact ih h

lemma row_lookup_prefix_map (p k : String) (v : JValue) (entries : List (String × JValue))
    (hnd : (entries.map Prod.fst).Nodup) (hmem : (k, v) ∈ entries) :
    row_lookup (p ++ k) (entries.map (fun kv => (p ++ kv.1, kv.2))) = some v := by
  induction entries with
  | nil => simp at hmem
  | cons kv rest ih =>
    have hnd' : kv.1 ∉ rest.map Prod.fst ∧ (rest.map Prod.fst).Nodup := by simpa using hnd
    rcases List.mem_cons.mp hmem with heq | hmem'
    · obtain ⟨k1, v1⟩ := kv
      obtain ⟨hk1, hv1⟩ := Prod.mk.injEq .. ▸ heq.symm
      subst hk1
      subst hv1
      rw [List.map_cons, row_lookup, if_pos rfl]
    · have hk : k ≠ kv.1 := fun he => hnd'.1 (he ▸ List.mem_map_of_mem Prod.fst hmem')
      rw [List.map_cons, row_lookup,
        if_neg (fun he => hk (string_append_left_cancel p _ _ he).symm)]
      exact ih hnd'.2 hmem'

/-- C8: the matched-transactions export yields exactly one flat row per match
record, in the order of the matches list; assuming each entry row has distinct
keys (as JSON objects do), each flat row contains every bank-entry field under
its `Bank_`-prefixed key, every invoice-entry field under its
`Invoice_`-prefixed key, and the confidence score and match reason under
`Confidence_Score` and `Match_Reason`. -/
theorem matched_rows_structure (m : MatchResponseBody)
    (ha : ∀ mr ∈ m.«matches».getD [], (mr.file_a_entry.map Prod.fst).Nodup)
    (hb : ∀ mr ∈ m.«matches».getD [], (mr.file_b_entry.map Prod.fst).Nodup) :
    matched_rows m = (m.«matches».getD []).map flatten_match
    ∧ ∀ mr ∈ m.«matches».getD [],
        (∀ kv ∈ mr.file_a_entry,
          row_lookup ("Bank_" ++ kv.1) (flatten_match mr) = some kv.2)
        ∧ (∀ kv ∈ mr.file_b_entry,
          row_lookup ("Invoice_" ++ kv.1) (flatten_match mr) = some kv.2)
        ∧ row_lookup "Confidence_Score" (flatten_match mr) = some mr.confidence_score
        ∧ row_lookup "Match_Reason" (flatten_match mr)
            = some (JValue.str mr.match_reason) := by
  refine ⟨matched_rows_eq_map m, fun mr hmr => ?_⟩
  have hfl := flatten_match_eq mr (ha mr hmr) (hb mr hmr)
  refine ⟨fun kv hkv => ?_, fun kv hkv => ?_, ?_, ?_⟩
  · rw [hfl, List.append_assoc]
    exact row_lookup_append_left _ _ _ _
      (row_lookup_prefix_map "Bank_" kv.1 kv.2 _ (ha mr hmr) hkv)
  · rw [hfl, List.append_assoc, row_lookup_append_right _ _ _ ?_]
    · exact row_lookup_append_left _ _ _ _
        (row_lookup_prefix_map "Invoice_" kv.1 kv.2 _ (hb mr hmr) hkv)
    · intro hmem
      rw [List.map_map] at hmem
      obtain ⟨x, -, he⟩ := List.mem_map.mp hmem
      exact bank_ne_invoice x.1 kv.1 he
  · rw [hfl, List.append_assoc, row_lookup_append_right _ _ _ ?_,
      row_lookup_append_right _ _ _ ?_]
    · simp [row_lookup]
    · intro hmem
      rw [List.map_map] at hmem
      obtain ⟨x, -, he⟩ := List.mem_map.mp hmem
      exact cs_ne_invoice x.1 he.symm
    · intro hmem
      rw [List.map_map] at hmem
      obtain ⟨x, -, he⟩ := List.mem_map.mp hmem
      exact cs_ne_bank x.1 he.symm
  · rw [hfl, List.append_assoc, row_lookup_append_right _ _ _ ?_,
      row_lookup_append_right _ _ _ ?_]
    · simp [row_lookup]
    · intro hmem
      rw [List.map_map] at hmem
      obtain ⟨x, -, he⟩ := List.mem_map.mp hmem
      exact mr_ne_invoice x.1 he.symm
    · intro hmem
      rw [List.map_map] at hmem
      obtain ⟨x, -, he⟩ := List.mem_map.mp hmem
      exact mr_ne_bank x.1 he.symm

/-- Witness for C8 at a one-match result with distinct keys: the export is the
single expected flat row. -/
theorem matched_rows_structure_witness :
    matched_rows ⟨true, none, none,
        some [⟨[("date", .str "d1")], [("inv", .str "i1")], .num 9, "exact"⟩],
        none, none, none, none⟩
      = [[("Bank_date", JValue.str "d1"), ("Invoice_inv", JValue.str "i1"),
          ("Confidence_Score", JValue.num 9), ("Match_Reason", JValue.str "exact")]] := by
  have h := matched_rows_structure ⟨true, none, none,
      some [⟨[("date", .str "d1")], [("inv", .str "i1")], .num 9, "exact"⟩],
      none, none, none, none⟩ (by decide) (by decide)
  rw [h.1]
  rfl
